import Mathlib

/-!
Shallow embedding of the invoice-automation pipeline
(`regex_ocr.py` and `extract_text_from_pdf.py`).

Python strings are modelled as Lean `String` / `List Char` (inputs are
ASCII; the `\s`, `\d` and `[A-Z]` character classes are modelled by their
ASCII parts, which is what every input in the claims uses).  The regular
expressions of the source are embedded as explicit backtracking matchers
over `List Char` that follow Python's leftmost / greedy semantics.
External effects (PDF page reading, the OCR subprocess) are abstracted by
an environment: each page read yields `Except Unit String`, the OCR run a
`Bool` outcome.
-/

/-- Python's `\s` class restricted to ASCII: space, tab, newline,
carriage return, vertical tab, form feed. -/
def isPySpace (c : Char) : Bool :=
  c = ' ' || c = '\t' || c = '\n' || c = '\r' || c = '\x0b' || c = '\x0c'

/-- Python's `str.strip()` on a character list. -/
def pyStripList (cs : List Char) : List Char :=
  ((cs.dropWhile isPySpace).reverse.dropWhile isPySpace).reverse

/-- Python's `str.strip()`. -/
def pyStrip (s : String) : String := ⟨pyStripList s.toList⟩

/-- Python's no-argument `str.split()`: words separated by whitespace runs,
    no empty words.  `acc` is the current word, reversed. -/
def pyWordsGo : List Char → List Char → List String
  | acc, [] => if acc.isEmpty then [] else [⟨acc.reverse⟩]
  | acc, c :: cs =>
    if isPySpace c then
      if acc.isEmpty then pyWordsGo [] cs else ⟨acc.reverse⟩ :: pyWordsGo [] cs
    else pyWordsGo (c :: acc) cs

/-- Python's `str.split()` (no separator argument). -/
def pyWords (s : String) : List String := pyWordsGo [] s.toList

/-- Python's `str.splitlines()` worker: `acc` is the current line, reversed.
    Line terminators `\r\n`, `\n`, `\r`; no trailing empty line for a
    trailing terminator. -/
def splitlinesGo : List Char → List Char → List String
  | acc, [] => [⟨acc.reverse⟩]
  | acc, '\r' :: '\n' :: rest =>
    ⟨acc.reverse⟩ :: (if rest.isEmpty then [] else splitlinesGo [] rest)
  | acc, '\n' :: rest =>
    ⟨acc.reverse⟩ :: (if rest.isEmpty then [] else splitlinesGo [] rest)
  | acc, '\r' :: rest =>
    ⟨acc.reverse⟩ :: (if rest.isEmpty then [] else splitlinesGo [] rest)
  | acc, c :: rest => splitlinesGo (c :: acc) rest

/-- Python's `str.splitlines()`. -/
def pySplitlines (s : String) : List String :=
  if s.toList.isEmpty then [] else splitlinesGo [] s.toList

/-- Python's `c1 in c2` substring test on character lists. -/
def containsSub (needle : List Char) : List Char → Bool
  | [] => needle.isEmpty
  | c :: cs => needle.isPrefixOf (c :: cs) || containsSub needle cs

/-- Lowercase a string (ASCII, which is all the source's inputs use). -/
def lowerStr (s : String) : String := ⟨s.toList.map Char.toLower⟩

/-- Case-insensitive literal matcher: consumes `pat` (given lowercase)
    from the input, returning the rest on success. -/
def litCI : List Char → List Char → Option (List Char)
  | [], cs => some cs
  | _ :: _, [] => none
  | p :: ps, c :: cs => if p.toLower = c.toLower then litCI ps cs else none

/-- Embeds `re.split(r'\s{2,}|\t', s)`: a delimiter is a maximal whitespace
    run of length at least two, or a single tab.  `acc` is the current
    field reversed, `wsbuf` the whitespace run currently being read,
    reversed. -/
def splitColsGo : List Char → List Char → List Char → List String
  | acc, wsbuf, [] =>
    if 2 ≤ wsbuf.length || wsbuf = ['\t'] then [⟨acc.reverse⟩, ""]
    else [⟨(wsbuf ++ acc).reverse⟩]
  | acc, wsbuf, c :: rest =>
    if isPySpace c then splitColsGo acc (c :: wsbuf) rest
    else
      if 2 ≤ wsbuf.length || wsbuf = ['\t'] then
        ⟨acc.reverse⟩ :: splitColsGo [c] [] rest
      else splitColsGo (c :: (wsbuf ++ acc)) [] rest

/-- Embeds `re.split(r'\s{2,}|\t', s)` from `extract_line_items`. -/
def pySplitCols (s : String) : List String := splitColsGo [] [] s.toList

/-- The `header_keywords` list of `extract_line_items`. -/
def headerKeywords : List String :=
  ["description", "sku", "qty", "quantity", "unit", "price", "amount"]

/-- The header test of `extract_line_items`:
    `all(any(h in part.lower() for part in line.lower().split()) for h in header_keywords)`. -/
def isHeaderLine (line : String) : Bool :=
  headerKeywords.all fun h =>
    (pyWords (lowerStr line)).any fun part =>
      containsSub h.toList (lowerStr part).toList

/-- The terminator test `re.match(r"(?i)(total|subtotal|gst|grand)", line)`
    as a Boolean: the raw line starts, case-insensitively, with one of the
    four keywords. -/
def isTotalsLine (line : String) : Bool :=
  (litCI "total".toList line.toList).isSome ||
  (litCI "subtotal".toList line.toList).isSome ||
  (litCI "gst".toList line.toList).isSome ||
  (litCI "grand".toList line.toList).isSome

/-- The line loop of `extract_line_items`: the Bool is `header_found`. -/
def lineItemsGo : Bool → List String → List (List String)
  | _, [] => []
  | false, line :: rest =>
    if isHeaderLine line then lineItemsGo true rest else lineItemsGo false rest
  | true, line :: rest =>
    if pyStrip line = "" ∨ isTotalsLine line = true then []
    else
      let fields := pySplitCols (pyStrip line)
      if 4 ≤ fields.length then fields.take 5 :: lineItemsGo true rest
      else lineItemsGo true rest

namespace RegexOcr

/-- Embeds `extract_line_items` of `regex_ocr.py`. -/
def extract_line_items (text : String) : List (List String) :=
  lineItemsGo false (pySplitlines text)

end RegexOcr

/-! ### Backtracking regex primitives

Each compiled pattern of `regex_ocr.py` is embedded as a matcher
`List Char → Option (capture × List Char)` that attempts the pattern at the
head of the input, mirroring Python's greedy, leftmost-alternative
backtracking; `reSearch` and `reFindall` then supply `Pattern.search`
(first match) and `Pattern.findall` (left-to-right non-overlapping
matches) over it. -/

/-- Greedy backtracking over a bounded repetition count: tries `n`,
    `n - 1`, ..., `0`, returning the first success. -/
def tryDesc (f : Nat → Option α) : Nat → Option α
  | 0 => f 0
  | n + 1 => f (n + 1) <|> tryDesc f n

/-- Length of the leading whitespace run. -/
def wsRun (cs : List Char) : Nat := (cs.takeWhile isPySpace).length

/-- The characters consumed between `orig` and its suffix `rest`. -/
def consumed (orig rest : List Char) : List Char :=
  orig.take (orig.length - rest.length)

/-- Embeds the glue `\s*[S]?\s*` (with `S` the separator set `seps`)
    followed by a continuation `k`, in Python's backtracking order:
    the first `\s*` greedy, then the optional separator (present first),
    then the second `\s*` greedy. -/
def sepThen (seps : List Char) (k : List Char → Option α) (cs : List Char) : Option α :=
  tryDesc
    (fun i =>
      let cs1 := cs.drop i
      (match cs1 with
       | c :: rest =>
         if seps.contains c then tryDesc (fun j => k (rest.drop j)) (wsRun rest) else none
       | [] => none)
      <|> tryDesc (fun j => k (cs1.drop j)) (wsRun cs1))
    (wsRun cs)

/-- Scanner behind `Pattern.search`: tries the matcher at every start
    position, leftmost first. -/
def searchGo (m : List Char → Option α) : List Char → Option α
  | [] => m []
  | c :: cs => m (c :: cs) <|> searchGo m cs

/-- Embeds `Pattern.search`, keeping the match's captured value. -/
def reSearch (m : List Char → Option (String × List Char)) (s : String) : Option String :=
  (searchGo m s.toList).map Prod.fst

/-- Scanner behind `Pattern.findall`: fuel-driven so it is structurally
    recursive; every embedded pattern consumes at least one character per
    match, so fuel `cs.length` never runs out. -/
def findallGo (m : List Char → Option (α × List Char)) : Nat → List Char → List α
  | 0, _ => []
  | _ + 1, [] => []
  | fuel + 1, c :: cs =>
    match m (c :: cs) with
    | some (a, rest) => a :: findallGo m fuel rest
    | none => findallGo m fuel cs

/-- Embeds `Pattern.findall`: all non-overlapping matches, left to right. -/
def reFindall (m : List Char → Option (α × List Char)) (s : String) : List α :=
  findallGo m s.toList.length s.toList

/-! ### The compiled patterns of regex_ocr.py -/

/-- Currency class `[$€£]`. -/
def isCurrency (c : Char) : Bool := c = '$' || c = '€' || c = '£'

/-- ORDER_PATTERN capture `(3100\d{7})`. -/
def orderCapture (cs : List Char) : Option (String × List Char) :=
  match cs with
  | '3' :: '1' :: '0' :: '0' :: rest =>
    let ds := rest.take 7
    if ds.length = 7 && ds.all Char.isDigit then
      some (⟨'3' :: '1' :: '0' :: '0' :: ds⟩, rest.drop 7)
    else none
  | _ => none

/-- ORDER_PATTERN label `(?:purchase\s*order|po|order\s*no\.?)`.  The three
    alternatives are mutually exclusive on their first two characters, so
    returning the first that matches is Python's behaviour. -/
def orderLabel (cs : List Char) : Option (List Char) :=
  ((litCI "purchase".toList cs).bind fun r => litCI "order".toList (r.dropWhile isPySpace))
  <|> litCI "po".toList cs
  <|> ((litCI "order".toList cs).bind fun r =>
        (litCI "no".toList (r.dropWhile isPySpace)).map fun r2 =>
          match r2 with
          | '.' :: r3 => r3
          | _ => r2)

/-- ORDER_PATTERN `(?i)(?:purchase\s*order|po|order\s*no\.?)?\s*[:\-]?\s*(3100\d{7})`
    attempted at the head of the input. -/
def orderMatchAt (cs : List Char) : Option (String × List Char) :=
  (match orderLabel cs with
   | some cs1 => sepThen [':', '-'] orderCapture cs1
   | none => none)
  <|> sepThen [':', '-'] orderCapture cs

/-- Group-1 results of `ORDER_PATTERN.findall(text)`. -/
def orderFindall (s : String) : List String := reFindall orderMatchAt s

/-- INVOICE_PATTERN and PO_PATTERN value class `[A-Z0-9\-\/]` under `(?i)`. -/
def isIdClass (c : Char) : Bool := c.isAlpha || c.isDigit || c = '-' || c = '/'

/-- Label-to-value filler class `[\s:_#-]` of INVOICE_PATTERN. -/
def isLabelSep (c : Char) : Bool :=
  isPySpace c || c = ':' || c = '_' || c = '#' || c = '-'

/-- A greedy character-class run `[...]{lo,}`, as capture. -/
def classRun (p : Char → Bool) (lo : Nat) (cs : List Char) : Option (String × List Char) :=
  let run := cs.takeWhile p
  if lo ≤ run.length then some (⟨run⟩, cs.drop run.length) else none

/-- INVOICE_PATTERN label `(invoice[\s:_#-]*no\.?|inv[\s:_#-]*number)`. -/
def invoiceLabel (cs : List Char) : Option (List Char) :=
  ((litCI "invoice".toList cs).bind fun r =>
    (litCI "no".toList (r.dropWhile isLabelSep)).map fun r2 =>
      match r2 with
      | '.' :: r3 => r3
      | _ => r2)
  <|> ((litCI "inv".toList cs).bind fun r => litCI "number".toList (r.dropWhile isLabelSep))

/-- INVOICE_PATTERN
    `(?i)(invoice[\s:_#-]*no\.?|inv[\s:_#-]*number)?\s*[:#-]?\s*([A-Z0-9\-\/]{4,})`,
    capture = group 2. -/
def invoiceMatchAt (cs : List Char) : Option (String × List Char) :=
  (match invoiceLabel cs with
   | some cs1 => sepThen [':', '#', '-'] (classRun isIdClass 4) cs1
   | none => none)
  <|> sepThen [':', '#', '-'] (classRun isIdClass 4) cs

/-- Date separator class `[\/\-\.]`. -/
def isDateSep (c : Char) : Bool := c = '/' || c = '-' || c = '.'

/-- Greedy `\d{1,2}` with backtracking into the continuation `k`. -/
def d12 (k : List Char → Option α) : List Char → Option α
  | a :: b :: rest =>
    if a.isDigit then
      if b.isDigit then k rest <|> k (b :: rest) else k (b :: rest)
    else none
  | [a] => if a.isDigit then k [] else none
  | [] => none

/-- Greedy `\d{2,4}` at the end of the date group: nothing follows it in
    the pattern, so the maximal run capped at four is taken. -/
def d24 (cs : List Char) : Option (List Char) :=
  let ds := (cs.takeWhile Char.isDigit).take 4
  if 2 ≤ ds.length then some (cs.drop ds.length) else none

/-- Date value group `(\d{1,2}[\/\-\.]\d{1,2}[\/\-\.]\d{2,4})`. -/
def dateCapture (cs : List Char) : Option (String × List Char) :=
  d12
    (fun r1 =>
      match r1 with
      | s1 :: r2 =>
        if isDateSep s1 then
          d12
            (fun r3 =>
              match r3 with
              | s2 :: r4 =>
                if isDateSep s2 then
                  (d24 r4).map fun rest => ((⟨consumed cs rest⟩ : String), rest)
                else none
              | [] => none)
            r2
        else none
      | [] => none)
    cs

/-- DATE_PATTERN label `(invoice\s*date|date\s*of\s*issue)`. -/
def dateLabel (cs : List Char) : Option (List Char) :=
  ((litCI "invoice".toList cs).bind fun r => litCI "date".toList (r.dropWhile isPySpace))
  <|> ((litCI "date".toList cs).bind fun r =>
        (litCI "of".toList (r.dropWhile isPySpace)).bind fun r2 =>
          litCI "issue".toList (r2.dropWhile isPySpace))

/-- DATE_PATTERN, capture = group 2 (the date). -/
def dateMatchAt (cs : List Char) : Option (String × List Char) :=
  (dateLabel cs).bind fun cs1 => sepThen [':', '#', '-'] dateCapture cs1

/-- DUE_DATE_PATTERN label `(due\s*date)`. -/
def dueLabel (cs : List Char) : Option (List Char) :=
  (litCI "due".toList cs).bind fun r => litCI "date".toList (r.dropWhile isPySpace)

/-- DUE_DATE_PATTERN, capture = group 2 (the date). -/
def dueMatchAt (cs : List Char) : Option (String × List Char) :=
  (dueLabel cs).bind fun cs1 => sepThen [':', '#', '-'] dateCapture cs1

/-- TOTAL_PATTERN filler class `[:$AUD\s]` under `(?i)`. -/
def isTotalSep (c : Char) : Bool :=
  c = ':' || c = '$' || c.toLower = 'a' || c.toLower = 'u' || c.toLower = 'd' || isPySpace c

/-- TOTAL_PATTERN label `(grand\s*total|total\s*amount|amount\s*due)`. -/
def totalLabel (cs : List Char) : Option (List Char) :=
  ((litCI "grand".toList cs).bind fun r => litCI "total".toList (r.dropWhile isPySpace))
  <|> ((litCI "total".toList cs).bind fun r => litCI "amount".toList (r.dropWhile isPySpace))
  <|> ((litCI "amount".toList cs).bind fun r => litCI "due".toList (r.dropWhile isPySpace))

/-- Greedy star `(?:,\d{3})*`: returns the consumed characters and the
    rest. -/
def commaGroups : List Char → List Char × List Char
  | ',' :: a :: b :: c :: rest =>
    if a.isDigit && b.isDigit && c.isDigit then
      let p := commaGroups rest
      (',' :: a :: b :: c :: p.1, p.2)
    else ([], ',' :: a :: b :: c :: rest)
  | cs => ([], cs)

/-- TOTAL_PATTERN value group `([$€£]?\s*\d{1,3}(?:,\d{3})*(?:\.\d{2})?)`. -/
def totalCapture (cs : List Char) : Option (String × List Char) :=
  let p :=
    match cs with
    | c :: rest => if isCurrency c then ([c], rest) else (([] : List Char), cs)
    | [] => (([] : List Char), ([] : List Char))
  let ws := p.2.takeWhile isPySpace
  let cs2 := p.2.drop ws.length
  let ds := (cs2.takeWhile Char.isDigit).take 3
  if ds.isEmpty then none
  else
    let cs3 := cs2.drop ds.length
    let cg := commaGroups cs3
    let q :=
      match cg.2 with
      | '.' :: d1 :: d2 :: r =>
        if d1.isDigit && d2.isDigit then (['.', d1, d2], r) else (([] : List Char), cg.2)
      | _ => (([] : List Char), cg.2)
    some (⟨p.1 ++ ws ++ ds ++ cg.1 ++ q.1⟩, q.2)

/-- TOTAL_PATTERN, capture = group 2.  The filler class `[:$AUD\s]*` is
    greedy and overlaps the value group's `[$€£]?\s*`, so it backtracks. -/
def totalMatchAt (cs : List Char) : Option (String × List Char) :=
  (totalLabel cs).bind fun cs1 =>
    tryDesc (fun k => totalCapture (cs1.drop k)) ((cs1.takeWhile isTotalSep).length)

/-- SUPPLIER_PATTERN label `(from|seller|vendor|supplier)`. -/
def supplierLabel (cs : List Char) : Option (List Char) :=
  litCI "from".toList cs <|> litCI "seller".toList cs
  <|> litCI "vendor".toList cs <|> litCI "supplier".toList cs

/-- SUPPLIER_PATTERN value group `(.+)`: one or more characters other than
    a newline, greedy. -/
def dotPlusCapture (cs : List Char) : Option (String × List Char) :=
  let run := cs.takeWhile fun c => c != '\n'
  if run.isEmpty then none else some (⟨run⟩, cs.drop run.length)

/-- SUPPLIER_PATTERN `(?i)(from|seller|vendor|supplier)\s*[:\-]?\s*(.+)`,
    capture = group 2. -/
def supplierMatchAt (cs : List Char) : Option (String × List Char) :=
  (supplierLabel cs).bind fun cs1 => sepThen [':', '-'] dotPlusCapture cs1

/-- ABN_PATTERN filler class `[\s:]`. -/
def isAbnSep (c : Char) : Bool := isPySpace c || c = ':'

/-- ABN_PATTERN value class `[A-Z0-9\- ]` under `(?i)`. -/
def isAbnClass (c : Char) : Bool := c.isAlpha || c.isDigit || c = '-' || c = ' '

/-- ABN_PATTERN label `(ABN|GST\s*number|VAT\s*number|Tax\s*ID)`. -/
def abnLabel (cs : List Char) : Option (List Char) :=
  litCI "abn".toList cs
  <|> ((litCI "gst".toList cs).bind fun r => litCI "number".toList (r.dropWhile isPySpace))
  <|> ((litCI "vat".toList cs).bind fun r => litCI "number".toList (r.dropWhile isPySpace))
  <|> ((litCI "tax".toList cs).bind fun r => litCI "id".toList (r.dropWhile isPySpace))

/-- ABN_PATTERN `(?i)(ABN|GST\s*number|VAT\s*number|Tax\s*ID)[\s:]*([A-Z0-9\- ]{8,})`,
    capture = group 2; the filler `[\s:]*` overlaps the value class on the
    space character, so it backtracks. -/
def abnMatchAt (cs : List Char) : Option (String × List Char) :=
  (abnLabel cs).bind fun cs1 =>
    tryDesc (fun k => classRun isAbnClass 8 (cs1.drop k)) ((cs1.takeWhile isAbnSep).length)

/-- PO_PATTERN label `(PO[\s_-]?Number|Purchase\s*Order|Reference)`; inside
    the first alternative the optional `[\s_-]?` is greedy (with-separator
    tried first). -/
def poLabel (cs : List Char) : Option (List Char) :=
  ((litCI "po".toList cs).bind fun r =>
    (match r with
     | c :: r2 =>
       if isPySpace c || c = '_' || c = '-' then litCI "number".toList r2 else none
     | [] => none)
    <|> litCI "number".toList r)
  <|> ((litCI "purchase".toList cs).bind fun r => litCI "order".toList (r.dropWhile isPySpace))
  <|> litCI "reference".toList cs

/-- PO_PATTERN `(?i)(PO[\s_-]?Number|Purchase\s*Order|Reference)\s*[:#-]?\s*([A-Z0-9\-\/]{4,})`,
    capture = group 2. -/
def poMatchAt (cs : List Char) : Option (String × List Char) :=
  (poLabel cs).bind fun cs1 => sepThen [':', '#', '-'] (classRun isIdClass 4) cs1

/-- FREIGHT_PATTERN label character class `[\s_]`. -/
def isWsU (c : Char) : Bool := isPySpace c || c = '_'

/-- FREIGHT_PATTERN label `(freight[\s_]*(inc)?[\s_]*gst)`, returning
    (group 1, group 2, rest).  The `[\s_]*` runs are deterministic here
    because neither `inc` nor `gst` starts with a class character; the
    optional `(inc)?` backtracks. -/
def freightLabel (cs : List Char) : Option (String × String × List Char) :=
  (litCI "freight".toList cs).bind fun r1 =>
    let r2 := r1.dropWhile isWsU
    match litCI "inc".toList r2 with
    | some r3 =>
      let r4 := r3.dropWhile isWsU
      (match litCI "gst".toList r4 with
       | some r5 => some (⟨consumed cs r5⟩, ⟨consumed r2 r3⟩, r5)
       | none =>
         match litCI "gst".toList r2 with
         | some r5 => some (⟨consumed cs r5⟩, "", r5)
         | none => none)
    | none =>
      match litCI "gst".toList r2 with
      | some r5 => some (⟨consumed cs r5⟩, "", r5)
      | none => none

/-- FREIGHT_PATTERN value group `([$€£]?\s*\d+(?:\.\d{2})?)`. -/
def numCapture (cs : List Char) : Option (String × List Char) :=
  let p :=
    match cs with
    | c :: rest => if isCurrency c then ([c], rest) else (([] : List Char), cs)
    | [] => (([] : List Char), ([] : List Char))
  let ws := p.2.takeWhile isPySpace
  let cs2 := p.2.drop ws.length
  let ds := cs2.takeWhile Char.isDigit
  if ds.isEmpty then none
  else
    let cs3 := cs2.drop ds.length
    let q :=
      match cs3 with
      | '.' :: d1 :: d2 :: r =>
        if d1.isDigit && d2.isDigit then (['.', d1, d2], r) else (([] : List Char), cs3)
      | _ => (([] : List Char), cs3)
    some (⟨p.1 ++ ws ++ ds ++ q.1⟩, q.2)

/-- FREIGHT_PATTERN `(?i)(freight[\s_]*(inc)?[\s_]*gst)?\s*[:\-]?\s*([$€£]?\s*\d+(?:\.\d{2})?)`
    attempted at the head; capture = the triple (group 1, group 2, group 3)
    that `findall` returns for a three-group pattern. -/
def freightMatchAt (cs : List Char) : Option ((String × String × String) × List Char) :=
  (match freightLabel cs with
   | some (g1, g2, cs1) =>
     (sepThen [':', '-'] numCapture cs1).map fun p => ((g1, g2, p.1), p.2)
   | none => none)
  <|> (sepThen [':', '-'] numCapture cs).map fun p => ((("" : String), ("" : String), p.1), p.2)

/-- Group triples of `FREIGHT_PATTERN.findall(text)`. -/
def freightFindall (s : String) : List (String × String × String) :=
  reFindall freightMatchAt s

/-! ### extract_fields -/

/-- The nine-key record `extract_fields` returns; every key is always
    present, each value a string. -/
structure FieldRecord where
  order_number : String
  invoice_number : String
  invoice_date : String
  due_date : String
  total_amount : String
  freight_inc_gst : String
  supplier : String
  abn : String
  po_number : String
deriving DecidableEq, Repr

/-- Lexicographic code-point comparison on character lists, Python's
    string order. -/
def charListLe : List Char → List Char → Bool
  | [], _ => true
  | _ :: _, [] => false
  | a :: as, b :: bs =>
    if a.toNat < b.toNat then true
    else if b.toNat < a.toNat then false
    else charListLe as bs

/-- Python's `s1 <= s2`. -/
def strLe (a b : String) : Bool := charListLe a.toList b.toList

/-- Insert into a sorted list (insertion sort step). -/
def orderedInsertStr (a : String) : List String → List String
  | [] => [a]
  | b :: l => if strLe a b then a :: b :: l else b :: orderedInsertStr a l

/-- Insertion sort by `strLe`. -/
def insertionSortStr : List String → List String
  | [] => []
  | a :: l => orderedInsertStr a (insertionSortStr l)

/-- Deduplication keeping last occurrences (any deduplication gives the
    same result once sorted, which is how `sorted(set(l))` is used). -/
def dedupStr : List String → List String
  | [] => []
  | a :: l => if (dedupStr l).contains a then dedupStr l else a :: dedupStr l

/-- Python's `sorted(set(l))` for strings: unique elements in ascending
    lexicographic order. -/
def pySortedDedup (l : List String) : List String :=
  insertionSortStr (dedupStr l)

/-- Python's `s.split(sep)[0]` for `sep = '\n'`: the prefix before the
    first newline. -/
def firstLine (s : String) : String := ⟨s.toList.takeWhile fun c => c != '\n'⟩

/-- Python's `s.split(', ')` (the literal two-character separator used by
    `write_to_csv` on `order_number`): `acc` is the current piece,
    reversed. -/
def splitCommaSpaceGo : List Char → List Char → List String
  | acc, [] => [⟨acc.reverse⟩]
  | acc, ',' :: ' ' :: rest => ⟨acc.reverse⟩ :: splitCommaSpaceGo [] rest
  | acc, c :: rest => splitCommaSpaceGo (c :: acc) rest

/-- Python's `s.split(', ')`. -/
def splitCommaSpace (s : String) : List String := splitCommaSpaceGo [] s.toList

namespace RegexOcr

/-- Embeds `extract_fields` of `regex_ocr.py`. -/
def extract_fields (text : String) : FieldRecord :=
  let order := orderFindall text
  let invoice := reSearch invoiceMatchAt text
  let date := reSearch dateMatchAt text
  let due := reSearch dueMatchAt text
  let total := reSearch totalMatchAt text
  let supplier := reSearch supplierMatchAt text
  let abn := reSearch abnMatchAt text
  let po := reSearch poMatchAt text
  let freight := freightFindall text
  { order_number := if order.isEmpty then "" else String.intercalate ", " (pySortedDedup order)
    invoice_number := match invoice with | some v => pyStrip v | none => ""
    invoice_date := match date with | some v => pyStrip v | none => ""
    due_date := match due with | some v => pyStrip v | none => ""
    total_amount := match total with | some v => pyStrip v | none => ""
    freight_inc_gst := match freight.getLast? with | some t => pyStrip t.2.2 | none => "0.00"
    supplier := match supplier with | some v => pyStrip (firstLine v) | none => ""
    abn := match abn with | some v => pyStrip v | none => ""
    po_number := match po with | some v => pyStrip v | none => "" }

end RegexOcr

/-! ### Text acquisition and the OCR fallback

A PDF document read is abstracted as `Except Unit (List (Except Unit String))`:
either opening fails, or it yields the pages, each of whose `get_text()`
either fails or yields that page's text. -/

/-- The page texts when every page read succeeds, `none` as soon as one
    page raises (the caller then returns the empty string: no partial-page
    result). -/
def pageTexts : List (Except Unit String) → Option (List String)
  | [] => some []
  | Except.ok s :: rest => (pageTexts rest).map fun l => s :: l
  | Except.error _ :: _ => none

namespace RegexOcr

/-- Embeds `extract_text_from_pdf` of `regex_ocr.py`:
    `"\n".join(page.get_text() for page in doc)` guarded by
    `try ... except: return ""`. -/
def extract_text_from_pdf (doc : Except Unit (List (Except Unit String))) : String :=
  match doc with
  | Except.error _ => ""
  | Except.ok pages =>
    match pageTexts pages with
    | some ts => String.intercalate "\n" ts
    | none => ""

end RegexOcr

namespace ExtractTextPdf

/-- Embeds `extract_text_from_pdf` of `extract_text_from_pdf.py`:
    `text += page.get_text()` page by page, `""` on any raised error. -/
def extract_text_from_pdf (doc : Except Unit (List (Except Unit String))) : String :=
  match doc with
  | Except.error _ => ""
  | Except.ok pages =>
    match pageTexts pages with
    | some ts => String.join ts
    | none => ""

end ExtractTextPdf

/-- Per-document environment: the direct read of the input PDF, the outcome
    of the external `ocrmypdf` run (`run_ocr`), and the read of the OCR
    output PDF. -/
structure PdfEnv where
  directDoc : Except Unit (List (Except Unit String))
  ocrOk : Bool
  ocrDoc : Except Unit (List (Except Unit String))

namespace RegexOcr

/-- The value of the variable `text` after `process_pdf`'s OCR-fallback
    block: the direct extraction, replaced by the extraction of the OCR
    output when the direct text strips to empty and `run_ocr` succeeded. -/
def acquiredText (e : PdfEnv) : String :=
  let text := extract_text_from_pdf e.directDoc
  if pyStrip text = "" then
    if e.ocrOk then extract_text_from_pdf e.ocrDoc else text
  else text

/-- Result of `process_pdf`: `fields = none` models the `return {}, []`
    branch (an empty dict is falsy in the caller's `if fields:` test);
    `ocrInvoked` records whether the OCR fallback branch ran. -/
structure ProcessResult where
  fields : Option FieldRecord
  items : List (List String)
  ocrInvoked : Bool
deriving DecidableEq, Repr

/-- Embeds `process_pdf` of `regex_ocr.py`. -/
def process_pdf (e : PdfEnv) : ProcessResult :=
  let text := acquiredText e
  let invoked := if pyStrip (extract_text_from_pdf e.directDoc) = "" then true else false
  if pyStrip text = "" then ⟨none, [], invoked⟩
  else ⟨some (extract_fields text), extract_line_items text, invoked⟩

end RegexOcr

namespace ExtractTextPdf

/-- Embeds `extract_order_numbers` of `extract_text_from_pdf.py`:
    `list(set(ORDER_PATTERN.findall(text)))` (the set's iteration order is
    arbitrary in Python; first occurrence order is used here). -/
def extract_order_numbers (text : String) : List String := (orderFindall text).dedup

/-- Embeds `process_pdf` of `extract_text_from_pdf.py`; the second
    component records whether the OCR branch ran. -/
def process_pdf (e : PdfEnv) : List String × Bool :=
  let text := extract_text_from_pdf e.directDoc
  if pyStrip text ≠ "" then (extract_order_numbers text, false)
  else if e.ocrOk then (extract_order_numbers (extract_text_from_pdf e.ocrDoc), true)
  else ([], true)

end ExtractTextPdf

/-! ### Batch output: write_to_csv and main -/

/-- A row of the summary CSV: the FieldRecord plus `pdf_filename`. -/
structure SummaryRow where
  pdf_filename : String
  order_number : String
  invoice_number : String
  invoice_date : String
  due_date : String
  total_amount : String
  freight_inc_gst : String
  supplier : String
  abn : String
  po_number : String
deriving DecidableEq, Repr

/-- A row of the line-items CSV. -/
structure LineItemRow where
  pdf_filename : String
  line_index : Nat
  order_number : String
  invoice_number : String
  sku : String
  description : String
  qty : String
  unit_price : String
  amount : String
  freight_inc_gst : String
deriving DecidableEq, Repr

namespace RegexOcr

/-- The summary row `write_to_csv` appends for one results entry:
    `fields` with the filename added. -/
def mkSummaryRow (filename : String) (f : FieldRecord) : SummaryRow :=
  { pdf_filename := filename
    order_number := f.order_number
    invoice_number := f.invoice_number
    invoice_date := f.invoice_date
    due_date := f.due_date
    total_amount := f.total_amount
    freight_inc_gst := f.freight_inc_gst
    supplier := f.supplier
    abn := f.abn
    po_number := f.po_number }

/-- The line row `write_to_csv` appends for one item:
    `clean = item + [''] * (5 - len(item))`,
    `orders = fields['order_number'].split(', ')`, and
    `orders[0] if len(orders) == 1 else ';'.join(orders)`. -/
def mkLineRow (filename : String) (f : FieldRecord) (idx : Nat) (item : List String) : LineItemRow :=
  let clean := item ++ List.replicate (5 - item.length) ""
  let orders := splitCommaSpace f.order_number
  { pdf_filename := filename
    line_index := idx
    order_number :=
      match orders with
      | [o] => o
      | os => String.intercalate ";" os
    invoice_number := f.invoice_number
    sku := clean.getD 0 ""
    description := clean.getD 1 ""
    qty := clean.getD 2 ""
    unit_price := clean.getD 3 ""
    amount := clean.getD 4 ""
    freight_inc_gst := f.freight_inc_gst }

/-- Embeds the row construction of `write_to_csv`: from the results
    mapping (filename to fields and items, in insertion order) to the two
    output relations. -/
def write_to_csv (results : List (String × FieldRecord × List (List String))) :
    List SummaryRow × List LineItemRow :=
  (results.map fun r => mkSummaryRow r.1 r.2.1,
   results.flatMap fun r => r.2.2.enum.map fun p => mkLineRow r.1 r.2.1 p.1 p.2)

/-- Python dict insertion `results[k] = v`: updates the value in place if
    the key exists, otherwise appends. -/
def dictInsert (k : String) (v : α) : List (String × α) → List (String × α)
  | [] => [(k, v)]
  | (k1, v1) :: rest =>
    if k1 = k then (k1, v) :: rest else (k1, v1) :: dictInsert k v rest

/-- The document loop of `main`: for each file run `process_pdf` and store
    `(fields, lines)` under the file's name when `fields` is truthy. -/
def mainGo : List (String × FieldRecord × List (List String)) → List (String × PdfEnv) →
    List (String × FieldRecord × List (List String))
  | acc, [] => acc
  | acc, (nm, e) :: rest =>
    match (process_pdf e).fields with
    | some f => mainGo (dictInsert nm (f, (process_pdf e).items) acc) rest
    | none => mainGo acc rest

/-- The results dict `main` hands to `write_to_csv`. -/
def mainResults (docs : List (String × PdfEnv)) :
    List (String × FieldRecord × List (List String)) :=
  mainGo [] docs

/-- The two relations produced by a full `main` run over the batch. -/
def mainOutput (docs : List (String × PdfEnv)) : List SummaryRow × List LineItemRow :=
  write_to_csv (mainResults docs)

end RegexOcr

/-! ### Concrete instances used by the claims -/

/-- The spec's line-item example text: header line, data line, blank line. -/
def c1ExampleText : String :=
  "Description   SKU   Qty   Unit Price   Amount\nWidget   W-1   2   10.00   20.00\n\n"

/-- The spec's order-number example text (ten-digit id). -/
def c2SpecText : String := "Order No: 3100123456\nOrder No: 3100123456\n"

/-- The order-number example with an id of the shape ORDER_PATTERN actually
    matches: `3100` followed by seven digits. -/
def c2ElevenText : String := "Order No: 31001234567\nOrder No: 31001234567\n"

/-- A table whose header line does satisfy the source's header test (the
    token `Qty/Quantity` contains both `qty` and `quantity`), followed by a
    3-field row, a 6-field row and a blank line. -/
def c6ExampleText : String :=
  "Description  SKU  Qty/Quantity  Unit  Price  Amount\na  b  c\nA  B  C  D  E  F\n\n"

/-- A text containing two distinct order ids. -/
def c9Text : String := "Order No: 31000000001\nOrder No: 31000000002\n"

/-- A one-document results mapping whose document has two order ids and one
    line item. -/
def c9Results : List (String × FieldRecord × List (List String)) :=
  [("doc.pdf", RegexOcr.extract_fields c9Text, [["S1", "Widget", "2", "5.00", "10.00"]])]

/-- A FieldRecord with a single order id, used to instantiate C9. -/
def c9SingleRecord : FieldRecord :=
  ⟨"31001234567", "INV-1", "", "", "", "9.90", "", "", ""⟩

/-- A document environment whose direct read yields usable text. -/
def envGood : PdfEnv := ⟨Except.ok [Except.ok "a b"], false, Except.error ()⟩

/-- A document environment that yields no text: the direct read raises and
    the OCR run fails. -/
def envBad : PdfEnv := ⟨Except.error (), false, Except.error ()⟩

/-- A two-document batch: one usable document, one failing document. -/
def docsPair : List (String × PdfEnv) := [("good.pdf", envGood), ("bad.pdf", envBad)]

/-! ### Helper lemmas -/

theorem orderedInsertStr_perm (a : String) (l : List String) :
    List.Perm (orderedInsertStr a l) (a :: l) := by
  induction l with
  | nil => rfl
  | cons b l ih =>
    by_cases h : strLe a b = true
    · simp [orderedInsertStr, h]
    · simp only [orderedInsertStr, h, if_false]
      exact (List.Perm.cons b ih).trans (List.Perm.swap a b l)

theorem insertionSortStr_perm (l : List String) :
    List.Perm (insertionSortStr l) l := by
  induction l with
  | nil => rfl
  | cons a l ih =>
    exact (orderedInsertStr_perm a (insertionSortStr l)).trans (List.Perm.cons a ih)

theorem mem_dedupStr (l : List String) : ∀ x, x ∈ dedupStr l ↔ x ∈ l := by
  induction l with
  | nil => simp [dedupStr]
  | cons a l ih =>
    intro x
    by_cases h : a ∈ dedupStr l
    · have ha : a ∈ l := (ih a).mp h
      simp only [dedupStr]
      rw [if_pos (by simpa using h), ih x, List.mem_cons]
      constructor
      · exact Or.inr
      · rintro (rfl | hx)
        · exact ha
        · exact hx
    · simp only [dedupStr]
      rw [if_neg (by simpa using h)]
      simp [List.mem_cons, ih x]

theorem dedupStr_nodup (l : List String) : (dedupStr l).Nodup := by
  induction l with
  | nil => simp [dedupStr]
  | cons a l ih =>
    by_cases h : a ∈ dedupStr l
    · simp only [dedupStr]
      rw [if_pos (by simpa using h)]
      exact ih
    · simp only [dedupStr]
      rw [if_neg (by simpa using h)]
      exact List.nodup_cons.mpr ⟨h, ih⟩

theorem pySortedDedup_nodup (l : List String) : (pySortedDedup l).Nodup :=
  (List.Perm.nodup_iff (insertionSortStr_perm (dedupStr l))).mpr (dedupStr_nodup l)

theorem pySortedDedup_toFinset (l : List String) :
    (pySortedDedup l).toFinset = l.toFinset := by
  rw [pySortedDedup, List.toFinset_eq_of_perm _ _ (insertionSortStr_perm (dedupStr l))]
  exact List.toFinset.ext fun x => mem_dedupStr l x

theorem process_fields_isSome_iff (e : PdfEnv) :
    (RegexOcr.process_pdf e).fields.isSome = true ↔ pyStrip (RegexOcr.acquiredText e) ≠ "" := by
  by_cases h : pyStrip (RegexOcr.acquiredText e) = "" <;>
    simp [RegexOcr.process_pdf, h]

theorem process_fields_none_iff (e : PdfEnv) :
    (RegexOcr.process_pdf e).fields = none ↔ pyStrip (RegexOcr.acquiredText e) = "" := by
  by_cases h : pyStrip (RegexOcr.acquiredText e) = "" <;>
    simp [RegexOcr.process_pdf, h]

theorem dictInsert_fst_mem {α : Type} (k : String) (v : α) (l : List (String × α)) (n : String) :
    n ∈ (RegexOcr.dictInsert k v l).map Prod.fst ↔ n ∈ l.map Prod.fst ∨ n = k := by
  induction l with
  | nil => simp [RegexOcr.dictInsert, eq_comm]
  | cons p l ih =>
    by_cases h : p.1 = k
    · simp only [RegexOcr.dictInsert]
      rw [if_pos h]
      subst h
      simp only [List.map_cons, List.mem_cons]
      tauto
    · simp only [RegexOcr.dictInsert]
      rw [if_neg h]
      simp only [List.map_cons, List.mem_cons, ih]
      tauto

theorem dictInsert_length_of_fresh {α : Type} (k : String) (v : α) (l : List (String × α))
    (h : k ∉ l.map Prod.fst) :
    (RegexOcr.dictInsert k v l).length = l.length + 1 := by
  induction l with
  | nil => simp [RegexOcr.dictInsert]
  | cons p l ih =>
    simp only [List.map_cons, List.mem_cons] at h
    push_neg at h
    simp only [RegexOcr.dictInsert]
    rw [if_neg (fun hp => h.1 hp.symm)]
    simp [ih h.2]

theorem mainGo_fst_not_mem (ds : List (String × PdfEnv))
    (acc : List (String × FieldRecord × List (List String))) (n : String)
    (h1 : n ∉ acc.map Prod.fst)
    (h2 : ∀ e, (n, e) ∈ ds → pyStrip (RegexOcr.acquiredText e) = "") :
    n ∉ (RegexOcr.mainGo acc ds).map Prod.fst := by
  induction ds generalizing acc with
  | nil => simpa [RegexOcr.mainGo] using h1
  | cons d ds ih =>
    obtain ⟨nm, e⟩ := d
    match hf : (RegexOcr.process_pdf e).fields with
    | some f =>
      have hnm : nm ≠ n := by
        intro heq
        subst heq
        have := h2 e (List.mem_cons_self _ _)
        rw [← process_fields_none_iff] at this
        simp [this] at hf
      simp only [RegexOcr.mainGo, hf]
      refine ih (RegexOcr.dictInsert nm (f, (RegexOcr.process_pdf e).items) acc) ?_ ?_
      · rw [dictInsert_fst_mem]
        rintro (hmem | hmem)
        · exact h1 hmem
        · exact hnm hmem.symm
      · intro e2 he2
        exact h2 e2 (List.mem_cons_of_mem _ he2)
    | none =>
      simp only [RegexOcr.mainGo, hf]
      exact ih acc h1 fun e2 he2 => h2 e2 (List.mem_cons_of_mem _ he2)

theorem mainGo_length (ds : List (String × PdfEnv))
    (acc : List (String × FieldRecord × List (List String)))
    (h1 : (ds.map Prod.fst).Nodup)
    (h2 : ∀ p ∈ ds, p.1 ∉ acc.map Prod.fst) :
    (RegexOcr.mainGo acc ds).length =
      acc.length + ds.countP fun d => (RegexOcr.process_pdf d.2).fields.isSome := by
  induction ds generalizing acc with
  | nil => simp [RegexOcr.mainGo]
  | cons d ds ih =>
    obtain ⟨nm, e⟩ := d
    simp only [List.map_cons, List.nodup_cons] at h1
    have hfresh : nm ∉ acc.map Prod.fst := h2 (nm, e) (List.mem_cons_self _ _)
    match hf : (RegexOcr.process_pdf e).fields with
    | some f =>
      simp only [RegexOcr.mainGo, hf]
      rw [ih _ h1.2 ?later]
      case later =>
        intro p hp
        rw [dictInsert_fst_mem]
        rintro (hmem | hmem)
        · exact h2 p (List.mem_cons_of_mem _ hp) hmem
        · exact h1.1 (hmem ▸ List.mem_map_of_mem Prod.fst hp)
      rw [dictInsert_length_of_fresh _ _ _ hfresh, List.countP_cons]
      simp [hf]
      omega
    | none =>
      simp only [RegexOcr.mainGo, hf]
      rw [ih _ h1.2 fun p hp => h2 p (List.mem_cons_of_mem _ hp), List.countP_cons]
      simp [hf]

theorem write_summary_names (rs : List (String × FieldRecord × List (List String))) :
    (RegexOcr.write_to_csv rs).1.map SummaryRow.pdf_filename = rs.map Prod.fst := by
  simp [RegexOcr.write_to_csv, RegexOcr.mkSummaryRow, List.map_map, Function.comp]

theorem line_mem_fst (rs : List (String × FieldRecord × List (List String)))
    (r : LineItemRow) (h : r ∈ (RegexOcr.write_to_csv rs).2) :
    r.pdf_filename ∈ rs.map Prod.fst := by
  simp only [RegexOcr.write_to_csv, List.mem_flatMap, List.mem_map] at h
  obtain ⟨entry, hentry, p, hp, hrow⟩ := h
  have : r.pdf_filename = entry.1 := by
    rw [← hrow]
    rfl
  rw [this]
  exact List.mem_map_of_mem Prod.fst hentry

theorem countP_process_split (l : List (String × PdfEnv)) :
    (l.countP fun d => (RegexOcr.process_pdf d.2).fields.isSome) +
      (l.countP fun d => pyStrip (RegexOcr.acquiredText d.2) == "") = l.length := by
  induction l with
  | nil => simp
  | cons d l ih =>
    rw [List.countP_cons, List.countP_cons, List.length_cons]
    by_cases h : pyStrip (RegexOcr.acquiredText d.2) = ""
    · have hn : (RegexOcr.process_pdf d.2).fields = none := (process_fields_none_iff d.2).mpr h
      have hb : (pyStrip (RegexOcr.acquiredText d.2) == "") = true := beq_iff_eq.mpr h
      rw [hn, hb]
      simp only [Option.isSome_none, Bool.false_eq_true, if_false, if_true]
      omega
    · have hs : (RegexOcr.process_pdf d.2).fields.isSome = true :=
        (process_fields_isSome_iff d.2).mpr h
      have hb : (pyStrip (RegexOcr.acquiredText d.2) == "") = false := beq_eq_false_iff_ne.mpr h
      rw [hs, hb]
      simp only [Bool.false_eq_true, if_false, if_true]
      omega

theorem write_summary_length (rs : List (String × FieldRecord × List (List String))) :
    (RegexOcr.write_to_csv rs).1.length = rs.length := by
  simp [RegexOcr.write_to_csv]

/-! ### Claim theorems -/

/-- C1: on the spec's example text (header `Description   SKU   Qty   Unit
    Price   Amount`, one data line, a blank line) the source's header test
    fails — the keyword `quantity` has no token match, and the test
    requires every keyword including both `qty` and `quantity` to match —
    so `extract_line_items` returns no items at all instead of the one
    claimed LineItem. -/
theorem c1_example_yields_no_items :
    isHeaderLine "Description   SKU   Qty   Unit Price   Amount" = false ∧
    RegexOcr.extract_line_items c1ExampleText = [] := by
  exact ⟨by decide, by decide⟩

/-- C2 (counterexample): the ten-digit id `3100123456` of the spec's
    example does not match ORDER_PATTERN (which requires `3100` plus seven
    digits), so the example text yields the empty order_number, not
    `3100123456`. -/
theorem c2_counterexample :
    (RegexOcr.extract_fields c2SpecText).order_number = "" ∧
    (RegexOcr.extract_fields c2SpecText).order_number ≠ "3100123456" := by
  exact ⟨by decide, by decide⟩

/-- C2 (amended): for every text, order_number is the comma-space join of
    the deduplicated set of all ORDER_PATTERN matches (duplicate-free,
    preserving the set of matches), and the empty string when there is no
    match; the example holds with an eleven-character id `31001234567`. -/
theorem c2_order_join_dedup :
    (∀ text : String,
      (RegexOcr.extract_fields text).order_number =
        (if (orderFindall text).isEmpty then ""
         else String.intercalate ", " (pySortedDedup (orderFindall text))) ∧
      (pySortedDedup (orderFindall text)).Nodup ∧
      (pySortedDedup (orderFindall text)).toFinset = (orderFindall text).toFinset) ∧
    (RegexOcr.extract_fields c2ElevenText).order_number = "31001234567" := by
  refine ⟨fun text => ⟨rfl, pySortedDedup_nodup _, pySortedDedup_toFinset _⟩, by decide⟩

/-- C5: for every text, freight_inc_gst is the stripped third capture of
    the last FREIGHT_PATTERN match, and `0.00` when the pattern never
    matches. -/
theorem c5_freight_last_match :
    ∀ text : String,
      (freightFindall text = [] →
        (RegexOcr.extract_fields text).freight_inc_gst = "0.00") ∧
      (∀ ms m, freightFindall text = ms ++ [m] →
        (RegexOcr.extract_fields text).freight_inc_gst = pyStrip m.2.2) := by
  intro text
  constructor
  · intro h
    simp [RegexOcr.extract_fields, h]
  · intro ms m h
    simp [RegexOcr.extract_fields, h, List.getLast?_concat]

/-- C5 (witness): a text with no digits defaults to `0.00`; a text whose
    only match captures `5` yields `5`. -/
theorem c5_witness :
    (RegexOcr.extract_fields "x").freight_inc_gst = "0.00" ∧
    (RegexOcr.extract_fields "5").freight_inc_gst = pyStrip "5" :=
  ⟨(c5_freight_last_match "x").1 (by decide),
   (c5_freight_last_match "5").2 [] ("", "", "5") (by decide)⟩

/-- C6: in the data-row region (header found, line neither blank nor a
    totals line) a line splitting into fewer than four fields is
    discarded and a line with four or more fields contributes its first
    five fields; on a concrete table a 3-token row yields nothing and a
    6-token row yields its first five tokens. -/
theorem c6_data_row_region :
    (∀ line rest, pyStrip line ≠ "" → isTotalsLine line = false →
      ((pySplitCols (pyStrip line)).length < 4 →
        lineItemsGo true (line :: rest) = lineItemsGo true rest) ∧
      (4 ≤ (pySplitCols (pyStrip line)).length →
        lineItemsGo true (line :: rest) =
          (pySplitCols (pyStrip line)).take 5 :: lineItemsGo true rest)) ∧
    RegexOcr.extract_line_items c6ExampleText = [["A", "B", "C", "D", "E"]] := by
  constructor
  · intro line rest h1 h2
    constructor
    · intro hlt
      simp [lineItemsGo, h1, h2, Nat.not_le.mpr hlt]
    · intro hge
      simp [lineItemsGo, h1, h2, hge]
  · decide

/-- C6 (witness): the 3-token row `a  b  c` is discarded inside the data
    region. -/
theorem c6_witness :
    lineItemsGo true ["a  b  c", "A  B  C  D  E  F"] =
      lineItemsGo true ["A  B  C  D  E  F"] :=
  (c6_data_row_region.1 "a  b  c" ["A  B  C  D  E  F"] (by decide) (by decide)).1 (by decide)

/-- C4: whenever the direct text extraction of a document strips to a
    non-empty string, the OCR fallback branch is not taken, in both
    `regex_ocr.py` and `extract_text_from_pdf.py`. -/
theorem c4_ocr_gated :
    ∀ e : PdfEnv,
      (pyStrip (RegexOcr.extract_text_from_pdf e.directDoc) ≠ "" →
        (RegexOcr.process_pdf e).ocrInvoked = false) ∧
      (pyStrip (ExtractTextPdf.extract_text_from_pdf e.directDoc) ≠ "" →
        (ExtractTextPdf.process_pdf e).2 = false) := by
  intro e
  constructor
  · intro h
    unfold RegexOcr.process_pdf
    split
    next hh => exact absurd hh h
    next =>
      simp only []
      split <;> rfl
  · intro h
    simp [ExtractTextPdf.process_pdf, h]

/-- C4 (witness): a document with directly extractable text never invokes
    OCR. -/
theorem c4_witness :
    (RegexOcr.process_pdf envGood).ocrInvoked = false ∧
    (ExtractTextPdf.process_pdf envGood).2 = false :=
  ⟨(c4_ocr_gated envGood).1 (by decide), (c4_ocr_gated envGood).2 (by decide)⟩

/-- C8 (counterexample): `regex_ocr.py`'s `extract_text_from_pdf` joins the
    page texts with a newline separator, so on a two-page document with
    pages `a` and `b` it returns `a\nb`, not the plain concatenation
    `ab`. -/
theorem c8_counterexample :
    RegexOcr.extract_text_from_pdf (Except.ok [Except.ok "a", Except.ok "b"]) = "a\nb" ∧
    ("a\nb" : String) ≠ "a" ++ "b" := by
  exact ⟨by decide, by decide⟩

/-- C8 (amended): neither acquirer ever raises; any failure (open error or
    any page error) yields the empty string, never a partial-page result;
    on success `extract_text_from_pdf.py` returns the plain concatenation
    of the page texts while `regex_ocr.py` returns them joined by a
    newline separator. -/
theorem c8_acquirer_total :
    (∀ u : Unit,
      RegexOcr.extract_text_from_pdf (Except.error u) = "" ∧
      ExtractTextPdf.extract_text_from_pdf (Except.error u) = "") ∧
    (∀ pages, pageTexts pages = none →
      RegexOcr.extract_text_from_pdf (Except.ok pages) = "" ∧
      ExtractTextPdf.extract_text_from_pdf (Except.ok pages) = "") ∧
    (∀ pages ts, pageTexts pages = some ts →
      RegexOcr.extract_text_from_pdf (Except.ok pages) = String.intercalate "\n" ts ∧
      ExtractTextPdf.extract_text_from_pdf (Except.ok pages) = String.join ts) := by
  refine ⟨fun u => ⟨rfl, rfl⟩, fun pages h => ?_, fun pages ts h => ?_⟩
  · simp [RegexOcr.extract_text_from_pdf, ExtractTextPdf.extract_text_from_pdf, h]
  · simp [RegexOcr.extract_text_from_pdf, ExtractTextPdf.extract_text_from_pdf, h]

/-- C8 (witness): a document with a failing second page yields the empty
    string; a fully readable two-page document yields the two joins. -/
theorem c8_witness :
    (RegexOcr.extract_text_from_pdf (Except.ok [Except.ok "a", Except.error ()]) = "" ∧
     ExtractTextPdf.extract_text_from_pdf (Except.ok [Except.ok "a", Except.error ()]) = "") ∧
    (RegexOcr.extract_text_from_pdf (Except.ok [Except.ok "a", Except.ok "b"]) =
       String.intercalate "\n" ["a", "b"] ∧
     ExtractTextPdf.extract_text_from_pdf (Except.ok [Except.ok "a", Except.ok "b"]) =
       String.join ["a", "b"]) :=
  ⟨c8_acquirer_total.2.1 [Except.ok "a", Except.error ()] (by decide),
   c8_acquirer_total.2.2 [Except.ok "a", Except.ok "b"] ["a", "b"] (by decide)⟩

/-- C10: a SummaryRow's fields are produced exactly when the acquired text
    strips to a non-empty string — the nine-key record `extract_fields`
    returns is always truthy, so even the all-recognizers-miss text `a b`
    (eight empty fields, freight defaulting to `0.00`) still yields
    `some` fields. -/
theorem c10_summary_iff_text :
    (∀ e : PdfEnv,
      (RegexOcr.process_pdf e).fields.isSome = true ↔
        pyStrip (RegexOcr.acquiredText e) ≠ "") ∧
    RegexOcr.process_pdf envGood =
      ⟨some ⟨"", "", "", "", "", "0.00", "", "", ""⟩, [], false⟩ :=
  ⟨process_fields_isSome_iff, by decide⟩

/-- C3: in the batch output, every LineItemRow's filename has a SummaryRow
    with the same filename, and a document name all of whose documents
    yield no text after the OCR fallback appears in neither relation. -/
theorem c3_no_orphans_and_dropped :
    ∀ docs : List (String × PdfEnv),
      (∀ r ∈ (RegexOcr.mainOutput docs).2,
        ∃ s ∈ (RegexOcr.mainOutput docs).1, s.pdf_filename = r.pdf_filename) ∧
      (∀ n : String,
        (∀ e : PdfEnv, (n, e) ∈ docs → pyStrip (RegexOcr.acquiredText e) = "") →
        (∀ s ∈ (RegexOcr.mainOutput docs).1, s.pdf_filename ≠ n) ∧
        (∀ r ∈ (RegexOcr.mainOutput docs).2, r.pdf_filename ≠ n)) := by
  intro docs
  constructor
  · intro r hr
    have h1 : r.pdf_filename ∈ (RegexOcr.mainResults docs).map Prod.fst :=
      line_mem_fst _ r hr
    rw [← write_summary_names] at h1
    obtain ⟨s, hs, heq⟩ := List.mem_map.mp h1
    exact ⟨s, hs, heq⟩
  · intro n hn
    have hkeys : n ∉ (RegexOcr.mainResults docs).map Prod.fst :=
      mainGo_fst_not_mem docs [] n (by simp) hn
    constructor
    · intro s hs heq
      apply hkeys
      rw [← write_summary_names, ← heq]
      exact List.mem_map_of_mem SummaryRow.pdf_filename hs
    · intro r hr heq
      apply hkeys
      rw [← heq]
      exact line_mem_fst _ r hr

/-- C3 (witness): in a batch with one readable and one unreadable
    document, no output row carries the unreadable document's name. -/
theorem c3_witness :
    (∀ s ∈ (RegexOcr.mainOutput docsPair).1, s.pdf_filename ≠ "bad.pdf") ∧
    (∀ r ∈ (RegexOcr.mainOutput docsPair).2, r.pdf_filename ≠ "bad.pdf") :=
  (c3_no_orphans_and_dropped docsPair).2 "bad.pdf" (by
    intro e he
    simp only [docsPair, List.mem_cons, List.not_mem_nil, or_false] at he
    rcases he with h | h
    · have hbad : ("bad.pdf" : String) = "good.pdf" := congrArg Prod.fst h
      exact absurd hbad (by decide)
    · have h2 : e = envBad := congrArg Prod.snd h
      rw [h2]
      decide)

/-- C7: for a batch of documents with pairwise distinct filenames the run
    is a total function whose summary relation has exactly N - M rows,
    where M counts the documents whose text acquisition (including the OCR
    fallback) strips to empty; when all documents fail both output
    relations are empty. -/
theorem c7_summary_count :
    ∀ docs : List (String × PdfEnv), (docs.map Prod.fst).Nodup →
      ((RegexOcr.mainOutput docs).1.length =
        docs.length -
          docs.countP (fun d => pyStrip (RegexOcr.acquiredText d.2) == "")) ∧
      (docs.countP (fun d => pyStrip (RegexOcr.acquiredText d.2) == "") = docs.length →
        (RegexOcr.mainOutput docs).1 = [] ∧ (RegexOcr.mainOutput docs).2 = []) := by
  intro docs hnd
  have hlen : (RegexOcr.mainResults docs).length =
      docs.countP fun d => (RegexOcr.process_pdf d.2).fields.isSome := by
    simpa using mainGo_length docs [] hnd (by simp)
  have hsum : (RegexOcr.mainOutput docs).1.length = (RegexOcr.mainResults docs).length :=
    write_summary_length _
  have hsplit := countP_process_split docs
  constructor
  · rw [hsum, hlen]
    omega
  · intro hM
    have h0 : (RegexOcr.mainResults docs).length = 0 := by
      rw [hlen]
      omega
    have hnil : RegexOcr.mainResults docs = [] := List.length_eq_zero.mp h0
    constructor <;> simp [RegexOcr.mainOutput, RegexOcr.write_to_csv, hnil]

/-- C7 (witness): the two-document batch with one failing document yields
    exactly one summary row. -/
theorem c7_witness :
    (RegexOcr.mainOutput docsPair).1.length =
      docsPair.length -
        docsPair.countP (fun d => pyStrip (RegexOcr.acquiredText d.2) == "") :=
  (c7_summary_count docsPair (by decide)).1

/-- C9 (counterexample): for a document with two order ids the summary
    carries `31000000001, 31000000002` while its line rows carry
    `31000000001;31000000002` — the line rows' order_number is not a copy
    of the FieldRecord value. -/
theorem c9_counterexample :
    (RegexOcr.extract_fields c9Text).order_number = "31000000001, 31000000002" ∧
    ((RegexOcr.write_to_csv c9Results).2.map LineItemRow.order_number) =
      ["31000000001;31000000002"] ∧
    ("31000000001;31000000002" : String) ≠ "31000000001, 31000000002" := by
  exact ⟨by decide, by decide, by decide⟩

/-- C9 (amended): invoice_number and freight_inc_gst on every line row are
    copies of the FieldRecord values (the same strings the SummaryRow
    carries); order_number is a copy exactly when the record's
    order_number splits on comma-space into a single piece (one order id),
    and is otherwise the pieces re-joined with a semicolon. -/
theorem c9_denormalized_copies :
    ∀ (nm : String) (f : FieldRecord) (idx : Nat) (item : List String),
      (RegexOcr.mkLineRow nm f idx item).invoice_number = f.invoice_number ∧
      (RegexOcr.mkLineRow nm f idx item).freight_inc_gst = f.freight_inc_gst ∧
      (RegexOcr.mkSummaryRow nm f).order_number = f.order_number ∧
      (RegexOcr.mkSummaryRow nm f).invoice_number = f.invoice_number ∧
      (RegexOcr.mkSummaryRow nm f).freight_inc_gst = f.freight_inc_gst ∧
      (splitCommaSpace f.order_number = [f.order_number] →
        (RegexOcr.mkLineRow nm f idx item).order_number = f.order_number) ∧
      (∀ os, splitCommaSpace f.order_number = os → os.length ≠ 1 →
        (RegexOcr.mkLineRow nm f idx item).order_number =
          String.intercalate ";" os) := by
  intro nm f idx item
  refine ⟨rfl, rfl, rfl, rfl, rfl, ?_, ?_⟩
  · intro h
    simp [RegexOcr.mkLineRow, h]
  · intro os h hne
    simp only [RegexOcr.mkLineRow, h]
    rcases os with _ | ⟨a, _ | ⟨b, t⟩⟩
    · rfl
    · exact absurd rfl hne
    · rfl

/-- C9 (witness): with a single order id the line row's order_number is
    the FieldRecord's own string. -/
theorem c9_witness :
    (RegexOcr.mkLineRow "doc.pdf" c9SingleRecord 0 ["s", "d", "1", "2", "3"]).order_number =
      c9SingleRecord.order_number :=
  (c9_denormalized_copies "doc.pdf" c9SingleRecord 0
    ["s", "d", "1", "2", "3"]).2.2.2.2.2.1 (by decide)
